import Mathlib

/-!
Shallow embedding of the AI-Video-Interpreter frontend's analysis-request
lifecycle, translated from:
  - src/frontend/src/hooks/useVideoAnalysis.jsx (hook `analyzeVideo`,
    service functions `analyzeVideoFile` etc. in the same file)
  - src/frontend/src/App.jsx (`handleAnalyze`)
  - src/frontend/src/components/VideoUploader.jsx (`formatFileSize`)
  - src/frontend/src/components/ResultsDisplay.jsx (`formatResult`,
    `copyToClipboard`)
-/

/-- A selected video file: opaque payload modelled by its metadata. -/
structure VideoFile where
  name : String
  size : Nat
deriving DecidableEq, Repr

/-- The JSON payload the backend returns (all fields optional in JS;
`success` is read for truthiness, absent treated as false). -/
structure AnalysisResult where
  success : Bool
  result : Option String
  error : Option String
  analysis_description : Option String
  analysis_type : Option String
deriving DecidableEq, Repr

/-- Lifecycle states from the spec's data model (Validating is internal
to the synchronous guard and never observable between renders). -/
inductive LifecycleState where
  | Idle
  | InFlight
  | Succeeded
  | Failed
deriving DecidableEq, Repr

/-- The lifecycle state determined by the hook's observable state
(`isAnalyzing`, `result`): analyzing means InFlight; otherwise a stored
result with `success` means Succeeded, without means Failed; no result
means Idle. -/
def lifecycleOf (isAnalyzing : Bool) (result : Option AnalysisResult) :
    LifecycleState :=
  if isAnalyzing then .InFlight
  else
    match result with
    | none => .Idle
    | some r => if r.success then .Succeeded else .Failed

/-- How the `fetch` + `response.json()` pair settles, seen from the
`try` block of `analyzeVideo`:
  - `ok data`: fetch resolved and the body decoded to `data`
    (any HTTP status: `fetch` does not reject on non-2xx);
  - `badBody`: fetch resolved but `response.json()` threw
    (non-2xx or 2xx with no decodable body);
  - `netError`: fetch itself rejected (network-level failure,
    no response). -/
inductive FetchOutcome where
  | ok (data : AnalysisResult)
  | badBody
  | netError
deriving DecidableEq, Repr

/-- The synthetic result stored by the `catch` branch of `analyzeVideo`:
`setResult({success: false, error: 'Network error occurred',
analysis_type: analysisType})`. -/
def networkErrorResult (analysisType : String) : AnalysisResult :=
  { success := false
    result := none
    error := some "Network error occurred"
    analysis_description := none
    analysis_type := some analysisType }

/-- The toast shown on a remote-reported failure:
`toast.error(data.error || 'Analysis failed')` (JS `||`: empty string is
falsy, so it also falls back). -/
def remoteFailureToast (data : AnalysisResult) : String :=
  match data.error with
  | some e => if e = "" then "Analysis failed" else e
  | none => "Analysis failed"

/-- JS `String.prototype.trim()`: strips leading and trailing
whitespace. -/
def trimmed (s : String) : String :=
  String.mk
    (((s.data.dropWhile Char.isWhitespace).reverse.dropWhile
        Char.isWhitespace).reverse)

/-- One full run of the hook's `analyzeVideo(file, analysisType,
customPrompt)` against a given fetch outcome, recording everything the
claims observe. -/
structure HookRun where
  /-- whether the outbound `fetch` was issued -/
  networkCalled : Bool
  /-- toasts surfaced to the user, in order -/
  toasts : List String
  /-- `isAnalyzing` after the `finally` block -/
  finalIsAnalyzing : Bool
  /-- `result` state after the run settles -/
  finalResult : Option AnalysisResult
  /-- whether `setProgress(100)` ran after the await -/
  progressSnappedTo100 : Bool
  /-- whether the progress-simulation interval was started -/
  timerStarted : Bool
  /-- whether `clearInterval(progressInterval)` ran when the call
  settled (the line after the `await fetch`) -/
  timerClearedOnSettle : Bool
  /-- whether the `finally` block scheduled `setProgress(0)` for 1s
  later -/
  progressResetScheduled : Bool
deriving DecidableEq, Repr

/-- Shallow embedding of `analyzeVideo` from useVideoAnalysis.jsx.
Guards: `if (!file)` then toast and return; `if (analysisType ===
'custom' && !customPrompt?.trim())` then toast and return. Otherwise
start the interval, issue the fetch, and settle per the outcome. On
`netError` the `clearInterval` after the `await` is never reached and
the `catch` block does not clear it. -/
def analyzeVideo (file : Option VideoFile) (analysisType : String)
    (customPrompt : Option String) (outcome : FetchOutcome) : HookRun :=
  if file.isNone then
    { networkCalled := false
      toasts := ["Please select a video file first"]
      finalIsAnalyzing := false
      finalResult := none
      progressSnappedTo100 := false
      timerStarted := false
      timerClearedOnSettle := false
      progressResetScheduled := false }
  else if analysisType = "custom" ∧ trimmed (customPrompt.getD "") = "" then
    { networkCalled := false
      toasts := ["Please enter a custom prompt for analysis"]
      finalIsAnalyzing := false
      finalResult := none
      progressSnappedTo100 := false
      timerStarted := false
      timerClearedOnSettle := false
      progressResetScheduled := false }
  else
    match outcome with
    | .ok data =>
      { networkCalled := true
        toasts := [if data.success then "Video analysis completed!"
                   else remoteFailureToast data]
        finalIsAnalyzing := false
        finalResult := some data
        progressSnappedTo100 := true
        timerStarted := true
        timerClearedOnSettle := true
        progressResetScheduled := true }
    | .badBody =>
      { networkCalled := true
        toasts := ["Failed to analyze video. Please check your connection."]
        finalIsAnalyzing := false
        finalResult := some (networkErrorResult analysisType)
        progressSnappedTo100 := true
        timerStarted := true
        timerClearedOnSettle := true
        progressResetScheduled := true }
    | .netError =>
      { networkCalled := true
        toasts := ["Failed to analyze video. Please check your connection."]
        finalIsAnalyzing := false
        finalResult := some (networkErrorResult analysisType)
        progressSnappedTo100 := false
        timerStarted := true
        timerClearedOnSettle := false
        progressResetScheduled := true }

/-- One tick of the progress-simulation interval callback:
`prev >= 90` clamps to 90 and clears the interval, otherwise adds
`Math.random() * 10` (the Bool is true when the callback called
`clearInterval` itself). -/
def tickProgress (p : ℚ) (r : ℚ) : ℚ × Bool :=
  if 90 ≤ p then (90, true) else (p + r * 10, false)

/-- Progress after a sequence of interval ticks with the given random
draws, starting from `p`. -/
def runProgress (p : ℚ) (rs : List ℚ) : ℚ :=
  rs.foldl (fun a r => (tickProgress a r).1) p

/-- How the axios call behind `analyzeVideoFile` settles:
  - `ok data`: 2xx with decoded body;
  - `httpError detail`: non-2xx response; `detail` is
    `error.response.data.detail` when decodable (resp. present);
  - `netFailure`: no response at all (network error / timeout). -/
inductive ApiOutcome where
  | ok (data : AnalysisResult)
  | httpError (detail : Option String)
  | netFailure
deriving DecidableEq, Repr

/-- Shallow embedding of `analyzeVideoFile` from the services module:
on any axios error it throws
`new Error(error.response?.data?.detail || 'Failed to analyze video')`
(JS `||`: an empty-string detail also falls back). -/
def analyzeVideoFile (outcome : ApiOutcome) : Except String AnalysisResult :=
  match outcome with
  | .ok data => .ok data
  | .httpError detail =>
    .error (match detail with
            | some d => if d = "" then "Failed to analyze video" else d
            | none => "Failed to analyze video")
  | .netFailure => .error "Failed to analyze video"

/-- App-level component state from App.jsx. -/
structure AppState where
  selectedFile : Option VideoFile
  analysisType : String
  results : Option AnalysisResult
  loading : Bool
  error : Option String
deriving DecidableEq, Repr

/-- Shallow embedding of `handleAnalyze` from App.jsx: guard
`if (!selectedFile || !analysisType)` sets a validation error and
returns; otherwise the call runs and either stores the result or sets
`error` to `err.message || "Analysis failed. Please try again."`.
Returns the final state and whether the outbound call was issued. -/
def handleAnalyze (s : AppState) (outcome : ApiOutcome) : AppState × Bool :=
  if s.selectedFile.isNone ∨ s.analysisType = "" then
    ({ s with error := some "Please select a video file and analysis type" },
     false)
  else
    match analyzeVideoFile outcome with
    | .ok r =>
      ({ s with loading := false, error := none, results := some r }, true)
    | .error m =>
      ({ s with loading := false, results := none
                error := some (if m = "" then "Analysis failed. Please try again."
                               else m) },
       true)

/-- Integer-log-1024 helper: structural fuel recursion mirroring
`Math.floor(Math.log(bytes) / Math.log(1024))` exactly on naturals. -/
def ilogAux : Nat → Nat → Nat
  | 0, _ => 0
  | fuel + 1, n => if n < 1024 then 0 else ilogAux fuel (n / 1024) + 1

/-- `Math.floor(Math.log(bytes) / Math.log(1024))` in exact arithmetic
(the JS code computes it in floating point; boundaries agree in exact
arithmetic). -/
def ilog1024 (bytes : Nat) : Nat := ilogAux bytes bytes

/-- The number `parseFloat((bytes / Math.pow(1024, i)).toFixed(2))`
represents, scaled by 100: round-half-up of `100 * bytes / 1024 ^ i`
computed exactly in naturals as
`(200 * bytes + 1024 ^ i) / (2 * 1024 ^ i)`. -/
def sizeH (bytes : Nat) : Nat :=
  (200 * bytes + 1024 ^ ilog1024 bytes) / (2 * 1024 ^ ilog1024 bytes)

/-- The unit-label table `['Bytes', 'KB', 'MB', 'GB']` of
`formatFileSize`. -/
def sizeUnits : List String := ["Bytes", "KB", "MB", "GB"]

/-- `sizes[i]` in JS: out-of-range indexing yields `undefined`, which
string concatenation renders as "undefined". -/
def unitAt (i : Nat) : String := (sizeUnits.get? i).getD "undefined"

/-- Renders a hundredths count the way `parseFloat(x.toFixed(2))`
stringifies: trailing zeros of the two-decimal form dropped. -/
def renderHundredths (h : Nat) : String :=
  let ip := h / 100
  let fr := h % 100
  if fr = 0 then toString ip
  else if fr % 10 = 0 then toString ip ++ "." ++ toString (fr / 10)
  else if fr < 10 then toString ip ++ ".0" ++ toString fr
  else toString ip ++ "." ++ toString fr

/-- Shallow embedding of `formatFileSize` from VideoUploader.jsx:
`bytes === 0` short-circuits to "0 Bytes"; otherwise
`parseFloat((bytes / Math.pow(k, i)).toFixed(2)) + ' ' + sizes[i]`
with `i = Math.floor(Math.log(bytes) / Math.log(1024))`. -/
def formatFileSize (bytes : Nat) : String :=
  if bytes = 0 then "0 Bytes"
  else renderHundredths (sizeH bytes) ++ " " ++ unitAt (ilog1024 bytes)

/-- The byte value a rendered size stands for, scaled by 100 (the
displayed number is `sizeH bytes / 100` in units of `1024 ^ i`); used
to state monotonicity and unit-consistency of the formatter. -/
def sizeValue (bytes : Nat) : Nat :=
  if bytes = 0 then 0 else sizeH bytes * 1024 ^ ilog1024 bytes

/-- The unit label `formatFileSize` picks for a byte count. -/
def sizeUnit (bytes : Nat) : String :=
  if bytes = 0 then "Bytes" else unitAt (ilog1024 bytes)

/-- Splits a character list on single newlines, mirroring
`paragraph.split("\n")` from `formatResult`. -/
def splitNL1 : List Char → List (List Char)
  | [] => [[]]
  | c :: cs =>
    if c = '\n' then [] :: splitNL1 cs
    else
      match splitNL1 cs with
      | [] => [[c]]
      | l :: ls => (c :: l) :: ls

/-- Splits a character list on double newlines (leftmost,
non-overlapping), mirroring `text.split("\n\n")` from `formatResult`. -/
def splitNL2 : List Char → List (List Char)
  | [] => [[]]
  | '\n' :: '\n' :: rest => [] :: splitNL2 rest
  | c :: cs =>
    match splitNL2 cs with
    | [] => [[c]]
    | l :: ls => (c :: l) :: ls

/-- Shallow embedding of `formatResult` from ResultsDisplay.jsx: the
text split into paragraphs on blank lines, each paragraph split into
lines (rendered with `<br />` between consecutive lines). -/
def formatResult (text : String) : List (List String) :=
  (splitNL2 text.data).map (fun p => (splitNL1 p).map (fun l => String.mk l))

/-- Rejoins lines with single newlines (inverse of `splitNL1`): what the
rendered paragraph contains, with `<br />` read back as a newline. -/
def joinLines : List (List Char) → List Char
  | [] => []
  | [l] => l
  | l :: ls => l ++ '\n' :: joinLines ls

/-- Rejoins paragraphs with blank lines (inverse of `splitNL2`). -/
def joinParas : List (List Char) → List Char
  | [] => []
  | [p] => p
  | p :: ps => p ++ '\n' :: '\n' :: joinParas ps

/-- What ResultsDisplay renders in its body: `formatResult(results.result)`
dereferences `results.result` unconditionally, so an absent `result`
field (JS `undefined`, a runtime TypeError on `.split`) is modelled as
`none`. -/
def displayedParagraphs (results : AnalysisResult) :
    Option (List (List String)) :=
  match results.result with
  | some t => some (formatResult t)
  | none => none

/-- What `copyToClipboard` writes: `results.result`, again dereferenced
unconditionally. -/
def copiedText (results : AnalysisResult) : Option String := results.result

/-- A fixed concrete file used in witnesses. -/
def clipFile : VideoFile := { name := "clip.mp4", size := 1024 }

/-- A fixed concrete successful backend payload used in witnesses. -/
def okData : AnalysisResult :=
  { success := true
    result := some "fine"
    error := none
    analysis_description := some "Technical"
    analysis_type := some "technical_analysis" }

/-- An App state with a file selected and a type chosen, ready to
analyze. -/
def readyState : AppState :=
  { selectedFile := some clipFile
    analysisType := "summary"
    results := none
    loading := true
    error := none }

/-- C1 (counterexample): with a file selected but `analysisType` the
empty string, the hook's `analyzeVideo` has no guard for the missing
type: the outbound `fetch` IS issued (and the progress timer started),
so the claim that no outbound call happens for every empty-type submit
is false. -/
theorem c1_empty_type_counterexample :
    (analyzeVideo (some clipFile) "" none (.ok okData)).networkCalled = true ∧
    (analyzeVideo (some clipFile) "" none (.ok okData)).timerStarted = true := by
  decide

/-- C1 (amended): App-level `handleAnalyze` does guard both fields —
missing file or empty type leaves everything unchanged except a
validation error naming the fields, with no outbound call; the hook's
`analyzeVideo` guards only a missing file (surfacing a message naming
the file and staying Idle with no call), and with a file present an
empty `analysisType` is NOT guarded: the call is issued. -/
theorem c1_submit_validation :
    (∀ (s : AppState) (o : ApiOutcome),
      s.selectedFile = none ∨ s.analysisType = "" →
      handleAnalyze s o =
        ({ s with error := some "Please select a video file and analysis type" },
         false)) ∧
    (∀ (ty : String) (cp : Option String) (o : FetchOutcome),
      analyzeVideo none ty cp o =
        { networkCalled := false
          toasts := ["Please select a video file first"]
          finalIsAnalyzing := false
          finalResult := none
          progressSnappedTo100 := false
          timerStarted := false
          timerClearedOnSettle := false
          progressResetScheduled := false } ∧
      lifecycleOf (analyzeVideo none ty cp o).finalIsAnalyzing
        (analyzeVideo none ty cp o).finalResult = .Idle) ∧
    (analyzeVideo (some clipFile) "" none (.ok okData)).networkCalled = true := by
  refine ⟨?_, ?_, by decide⟩
  · intro s o h
    have hcond : s.selectedFile.isNone = true ∨ s.analysisType = "" := by
      rcases h with h | h
      · exact Or.inl (by simp [h])
      · exact Or.inr h
    unfold handleAnalyze
    rcases hcond with h' | h'
    · rw [if_pos (Or.inl h')]
    · rw [if_pos (Or.inr h')]
  · intro ty cp o
    constructor
    · rfl
    · rfl

/-- C1 (witness): the amended validation behavior at a concrete empty
App state and a concrete hook call with no file. -/
theorem c1_submit_validation_witness :
    handleAnalyze
        { selectedFile := none, analysisType := "summary", results := none
          loading := false, error := none } (.ok okData) =
      ({ selectedFile := none, analysisType := "summary", results := none
         loading := false
         error := some "Please select a video file and analysis type" },
       false) :=
  c1_submit_validation.1
    { selectedFile := none, analysisType := "summary", results := none
      loading := false, error := none } (.ok okData) (Or.inl rfl)

/-- C2 (code bug, evaluated at the failing input): when the `fetch`
itself rejects (transport error), control jumps from the `await` to the
`catch` block and the `clearInterval(progressInterval)` on the line
after the `await` never runs — the interval that was started is not
cancelled at settlement even though the state reaches Failed. In the
other two settlement cases (response with decodable body, response with
undecodable body) it is cancelled. A still-live interval keeps firing:
a tick below 90 advances the cosmetic progress instead of stopping. -/
theorem c2_timer_dangling_on_transport_error :
    (analyzeVideo (some clipFile) "summary" none (.ok okData)).timerClearedOnSettle
        = true ∧
    (analyzeVideo (some clipFile) "summary" none .badBody).timerClearedOnSettle
        = true ∧
    (analyzeVideo (some clipFile) "summary" none .netError).timerStarted = true ∧
    (analyzeVideo (some clipFile) "summary" none .netError).timerClearedOnSettle
        = false ∧
    lifecycleOf
        (analyzeVideo (some clipFile) "summary" none .netError).finalIsAnalyzing
        (analyzeVideo (some clipFile) "summary" none .netError).finalResult
        = .Failed ∧
    tickProgress 50 (1 / 2) = (55, false) := by
  refine ⟨by decide, by decide, by decide, by decide, by decide, ?_⟩
  norm_num [tickProgress]

/-- C4: submitting with `analysisType = "custom"` and a custom prompt
that is empty or whitespace-only after trimming (or absent) raises the
validation toast and issues no network call, leaving the lifecycle at
Idle with no timer started. -/
theorem c4_custom_prompt_validation (file : VideoFile) (cp : Option String)
    (o : FetchOutcome) (hcp : trimmed (cp.getD "") = "") :
    (analyzeVideo (some file) "custom" cp o).networkCalled = false ∧
    (analyzeVideo (some file) "custom" cp o).toasts =
      ["Please enter a custom prompt for analysis"] ∧
    (analyzeVideo (some file) "custom" cp o).timerStarted = false ∧
    lifecycleOf (analyzeVideo (some file) "custom" cp o).finalIsAnalyzing
      (analyzeVideo (some file) "custom" cp o).finalResult = .Idle := by
  have hguard :
      analyzeVideo (some file) "custom" cp o =
        { networkCalled := false
          toasts := ["Please enter a custom prompt for analysis"]
          finalIsAnalyzing := false
          finalResult := none
          progressSnappedTo100 := false
          timerStarted := false
          timerClearedOnSettle := false
          progressResetScheduled := false } := by
    unfold analyzeVideo
    rw [if_neg (by simp), if_pos ⟨rfl, hcp⟩]
  rw [hguard]
  exact ⟨rfl, rfl, rfl, rfl⟩

/-- C4 (witness): the guard at a concrete whitespace-only prompt. -/
theorem c4_custom_prompt_validation_witness :
    (analyzeVideo (some clipFile) "custom" (some "   ") (.ok okData)).networkCalled
        = false ∧
    (analyzeVideo (some clipFile) "custom" (some "   ") (.ok okData)).toasts =
      ["Please enter a custom prompt for analysis"] ∧
    (analyzeVideo (some clipFile) "custom" (some "   ") (.ok okData)).timerStarted
        = false ∧
    lifecycleOf
        (analyzeVideo (some clipFile) "custom" (some "   ") (.ok okData)).finalIsAnalyzing
        (analyzeVideo (some clipFile) "custom" (some "   ") (.ok okData)).finalResult
        = .Idle :=
  c4_custom_prompt_validation clipFile (some "   ") (.ok okData) (by decide)

/-- C5 (counterexample): the synthetic payload the `catch` branch
stores does not carry `error: "network error"` — the code's literal is
`'Network error occurred'` — so the claimed stored value is not the one
stored. -/
theorem c5_error_string_counterexample :
    (analyzeVideo (some clipFile) "summary" none .netError).finalResult ≠
      some { success := false, result := none, error := some "network error"
             analysis_description := none, analysis_type := some "summary" } ∧
    (analyzeVideo (some clipFile) "summary" none .netError).finalResult =
      some { success := false, result := none
             error := some "Network error occurred"
             analysis_description := none, analysis_type := some "summary" } := by
  decide

/-- C5 (amended): on transport failure — the `fetch` rejecting, or the
response body failing to decode (which is how a non-2xx with no
decodable body surfaces, since `fetch` does not reject on status) — the
lifecycle ends Failed, the stored result is the synthetic
`{success: false, error: "Network error occurred", analysis_type}`, and
the generic network-failure toast is surfaced. -/
theorem c5_transport_failure (file : VideoFile) (ty : String)
    (cp : Option String) (o : FetchOutcome)
    (hguard : ¬(ty = "custom" ∧ trimmed (cp.getD "") = ""))
    (ho : o = .badBody ∨ o = .netError) :
    (analyzeVideo (some file) ty cp o).finalResult =
      some (networkErrorResult ty) ∧
    (analyzeVideo (some file) ty cp o).toasts =
      ["Failed to analyze video. Please check your connection."] ∧
    lifecycleOf (analyzeVideo (some file) ty cp o).finalIsAnalyzing
      (analyzeVideo (some file) ty cp o).finalResult = .Failed := by
  have hrun :
      analyzeVideo (some file) ty cp o =
        { networkCalled := true
          toasts := ["Failed to analyze video. Please check your connection."]
          finalIsAnalyzing := false
          finalResult := some (networkErrorResult ty)
          progressSnappedTo100 := o = .badBody
          timerStarted := true
          timerClearedOnSettle := o = .badBody
          progressResetScheduled := true } := by
    unfold analyzeVideo
    rw [if_neg (by simp), if_neg hguard]
    rcases ho with h | h <;> subst h <;> simp
  rw [hrun]
  refine ⟨rfl, rfl, ?_⟩
  simp [lifecycleOf, networkErrorResult]

/-- C5 (witness): the amended transport-failure behavior at a concrete
rejected fetch. -/
theorem c5_transport_failure_witness :
    (analyzeVideo (some clipFile) "summary" none .netError).finalResult =
      some (networkErrorResult "summary") ∧
    (analyzeVideo (some clipFile) "summary" none .netError).toasts =
      ["Failed to analyze video. Please check your connection."] ∧
    lifecycleOf
        (analyzeVideo (some clipFile) "summary" none .netError).finalIsAnalyzing
        (analyzeVideo (some clipFile) "summary" none .netError).finalResult
        = .Failed :=
  c5_transport_failure clipFile "summary" none .netError (by decide)
    (Or.inr rfl)

/-- C6 (counterexample): a non-2xx response whose body carries
`detail: ""` does carry a `detail` field, yet the surfaced message is
the generic fallback, not the (empty) value of the field — JS `||`
treats the empty string as falsy. -/
theorem c6_empty_detail_counterexample :
    (handleAnalyze readyState (.httpError (some ""))).1.error =
      some "Failed to analyze video" ∧
    (handleAnalyze readyState (.httpError (some ""))).1.error ≠ some "" := by
  decide

/-- C6 (amended): for a non-2xx response carrying a non-empty `detail`
the surfaced error message equals exactly that value; with no decodable
`detail` (or an empty one) the generic fallback
"Failed to analyze video" becomes the message; in particular HTTP 500
with body `{"detail": "model unavailable"}` surfaces
"model unavailable". -/
theorem c6_detail_surfaced (s : AppState) (d : String)
    (hf : s.selectedFile.isNone = false) (hty : ¬s.analysisType = "")
    (hd : ¬d = "") :
    (handleAnalyze s (.httpError (some d))).1.error = some d ∧
    (handleAnalyze s (.httpError none)).1.error =
      some "Failed to analyze video" ∧
    (handleAnalyze readyState (.httpError (some "model unavailable"))).1.error =
      some "model unavailable" := by
  have hcond : ¬(s.selectedFile.isNone = true ∨ s.analysisType = "") := by
    rintro (h | h)
    · rw [hf] at h
      exact Bool.false_ne_true h
    · exact hty h
  refine ⟨?_, ?_, by decide⟩
  · unfold handleAnalyze
    rw [if_neg (by simpa using hcond)]
    simp [analyzeVideoFile, hd]
  · unfold handleAnalyze
    rw [if_neg (by simpa using hcond)]
    simp [analyzeVideoFile]

/-- C6 (witness): the amended surfacing behavior at a concrete ready
state and a concrete non-empty detail. -/
theorem c6_detail_surfaced_witness :
    (handleAnalyze readyState (.httpError (some "model unavailable"))).1.error =
      some "model unavailable" :=
  (c6_detail_surfaced readyState "model unavailable" (by decide) (by decide)
    (by decide)).1

/-- `splitNL1` never returns an empty list of lines. -/
theorem splitNL1_ne_nil (s : List Char) : splitNL1 s ≠ [] := by
  induction s with
  | nil => simp [splitNL1]
  | cons c cs ih =>
    unfold splitNL1
    by_cases h : c = '\n'
    · simp [h]
    · rw [if_neg h]
      rcases hs : splitNL1 cs with _ | ⟨l, ls⟩
      · simp
      · simp

/-- Unfolding of `joinLines` on a cons with a nonempty tail. -/
theorem joinLines_cons (x : List Char) (r : List (List Char)) (h : r ≠ []) :
    joinLines (x :: r) = x ++ '\n' :: joinLines r := by
  cases r with
  | nil => exact absurd rfl h
  | cons a as => rfl

/-- Splitting on single newlines loses nothing: rejoining the lines
with newlines restores the paragraph. -/
theorem joinLines_splitNL1 (s : List Char) : joinLines (splitNL1 s) = s := by
  induction s with
  | nil => rfl
  | cons c cs ih =>
    unfold splitNL1
    by_cases h : c = '\n'
    · rw [if_pos h]
      rw [joinLines_cons [] (splitNL1 cs) (splitNL1_ne_nil cs)]
      simp [ih, h]
    · rw [if_neg h]
      rcases hs : splitNL1 cs with _ | ⟨l, ls⟩
      · exact absurd hs (splitNL1_ne_nil cs)
      · rw [hs] at ih
        cases ls with
        | nil =>
          simp [joinLines] at ih ⊢
          exact ih
        | cons m ms =>
          rw [joinLines_cons (c :: l) (m :: ms) (by simp)]
          rw [joinLines_cons l (m :: ms) (by simp)] at ih
          simp [← ih]

/-- `splitNL2` never returns an empty list of paragraphs. -/
theorem splitNL2_ne_nil (s : List Char) : splitNL2 s ≠ [] := by
  induction s using splitNL2.induct with
  | case1 => simp [splitNL2]
  | case2 rest ih => simp [splitNL2]
  | case3 c cs h heq ihne => exact absurd heq ihne
  | case4 c cs d l ls heq ih =>
    rw [splitNL2.eq_3 c cs d, heq]
    simp

/-- Unfolding of `joinParas` on a cons with a nonempty tail. -/
theorem joinParas_cons (x : List Char) (r : List (List Char)) (h : r ≠ []) :
    joinParas (x :: r) = x ++ '\n' :: '\n' :: joinParas r := by
  cases r with
  | nil => exact absurd rfl h
  | cons a as => rfl

/-- Splitting on double newlines loses nothing: rejoining the
paragraphs with blank lines restores the text. -/
theorem joinParas_splitNL2 (s : List Char) : joinParas (splitNL2 s) = s := by
  induction s using splitNL2.induct with
  | case1 => rfl
  | case2 rest ih =>
    rw [splitNL2.eq_2, joinParas_cons [] _ (splitNL2_ne_nil rest)]
    simp [ih]
  | case3 c cs h heq ihne => exact absurd heq (splitNL2_ne_nil cs)
  | case4 c cs d l ls heq ih =>
    rw [splitNL2.eq_3 c cs d, heq]
    rw [heq] at ih
    cases ls with
    | nil =>
      simp only [joinParas] at ih ⊢
      simp [ih]
    | cons m ms =>
      rw [joinParas_cons (c :: l) (m :: ms) (by simp)]
      rw [joinParas_cons l (m :: ms) (by simp)] at ih
      simp [← ih]

/-- C8: the renderer splits result text on double-newline boundaries
into paragraphs and on single newlines into lines within each
paragraph, with no other transformation (rejoining paragraphs with
blank lines and lines with newlines restores the text verbatim); in
particular "Line1\n\nLine2a\nLine2b" yields exactly the two paragraphs
["Line1"] and ["Line2a", "Line2b"], the second with a line break
between its two lines. -/
theorem c8_format_result :
    formatResult "Line1\n\nLine2a\nLine2b" = [["Line1"], ["Line2a", "Line2b"]] ∧
    ∀ s : List Char,
      joinParas ((splitNL2 s).map (fun p => joinLines (splitNL1 p))) = s := by
  constructor
  · decide
  · intro s
    have hmap :
        (splitNL2 s).map (fun p => joinLines (splitNL1 p)) = splitNL2 s := by
      have := List.map_congr_left
        (fun p (_ : p ∈ splitNL2 s) => joinLines_splitNL1 p)
      simpa using this
    rw [hmap, joinParas_splitNL2]

/-- Auxiliary invariant for the progress simulation: as long as every
random draw is below 1 (as `Math.random()` is), a progress value below
100 stays below 100 under any number of ticks. -/
theorem runProgress_lt_100 (rs : List ℚ) :
    ∀ p : ℚ, p < 100 → (∀ r ∈ rs, r < 1) → runProgress p rs < 100 := by
  induction rs with
  | nil => intro p hp _; simpa [runProgress] using hp
  | cons r rs ih =>
    intro p hp hr
    have hr1 : r < 1 := hr r (List.mem_cons_self r rs)
    have hstep : (tickProgress p r).1 < 100 := by
      unfold tickProgress
      by_cases h90 : (90:ℚ) ≤ p
      · rw [if_pos h90]; norm_num
      · rw [if_neg h90]
        push_neg at h90
        simp only
        linarith
    have : runProgress p (r :: rs) = runProgress (tickProgress p r).1 rs := rfl
    rw [this]
    exact ih _ hstep (fun x hx => hr x (List.mem_cons_of_mem r hx))

/-- C3 (counterexample): the simulated progress can exceed 90 while the
request is still in flight: with every random draw equal to 0.89 (a
legal `Math.random()` value), eleven ticks from 0 reach 97.9 — the
clamp only snaps back to 90 on the tick after 90 has been crossed. -/
theorem c3_exceeds_90_counterexample :
    (0:ℚ) ≤ 89 / 100 ∧ (89:ℚ) / 100 < 1 ∧
    90 < runProgress 0 (List.replicate 11 ((89:ℚ) / 100)) := by
  norm_num [runProgress, List.replicate, tickProgress]

/-- C3 (amended): the simulated progress starts at 0 and, on each
interval tick below 90, increases by `10 * r` for the random draw `r`;
it always stays below 100 (given draws in `[0, 1)`), and a tick at or
above 90 clamps it to exactly 90 and cancels the interval — so it may
transiently exceed 90 by less than 10 before snapping back; when the
call settles without the fetch throwing, the progress is snapped to
100; and in every settlement case a reset to 0 is scheduled shortly
(1s) after leaving the in-flight state. -/
theorem c3_progress_simulation :
    (∀ rs : List ℚ, (∀ r ∈ rs, r < 1) → runProgress 0 rs < 100) ∧
    (∀ p r : ℚ, 90 ≤ p → tickProgress p r = (90, true)) ∧
    (∀ p r : ℚ, p < 90 → tickProgress p r = (p + r * 10, false)) ∧
    (analyzeVideo (some clipFile) "summary" none (.ok okData)).progressSnappedTo100
        = true ∧
    (analyzeVideo (some clipFile) "summary" none .badBody).progressSnappedTo100
        = true ∧
    (analyzeVideo (some clipFile) "summary" none (.ok okData)).progressResetScheduled
        = true ∧
    (analyzeVideo (some clipFile) "summary" none .badBody).progressResetScheduled
        = true ∧
    (analyzeVideo (some clipFile) "summary" none .netError).progressResetScheduled
        = true := by
  refine ⟨?_, ?_, ?_, by decide, by decide, by decide, by decide, by decide⟩
  · intro rs hrs
    exact runProgress_lt_100 rs 0 (by norm_num) hrs
  · intro p r h
    unfold tickProgress
    rw [if_pos h]
  · intro p r h
    unfold tickProgress
    rw [if_neg (by push_neg; exact h)]

/-- C3 (witness): the amended tick laws at concrete values. -/
theorem c3_progress_simulation_witness :
    runProgress 0 [(0:ℚ)] < 100 ∧ tickProgress 95 (1 / 2) = (90, true) ∧
    tickProgress 0 (1 / 2) = (0 + 1 / 2 * 10, false) :=
  ⟨c3_progress_simulation.1 [0] (by norm_num),
   c3_progress_simulation.2.1 95 (1 / 2) (by norm_num),
   c3_progress_simulation.2.2.1 0 (1 / 2) (by norm_num)⟩

/-- C10: the results renderer reads `results.result` unconditionally —
its rendered body and its clipboard copy are defined exactly when the
`result` field is present (an absent field is the JS `undefined`
dereference, modelled as `none`) — while the data model's error branch
omits `result`, and the hook really does store such a payload: the
transport-failure run ends with the synthetic no-`result` value
stored. -/
theorem c10_renderer_requires_result :
    (∀ (r : AnalysisResult) (t : String), r.result = some t →
      displayedParagraphs r = some (formatResult t) ∧ copiedText r = some t) ∧
    (∀ r : AnalysisResult, r.result = none →
      displayedParagraphs r = none ∧ copiedText r = none) ∧
    (networkErrorResult "summary").result = none ∧
    (analyzeVideo (some clipFile) "summary" none .netError).finalResult =
      some (networkErrorResult "summary") := by
  refine ⟨?_, ?_, rfl, by decide⟩
  · intro r t ht
    exact ⟨by simp [displayedParagraphs, ht], by simp [copiedText, ht]⟩
  · intro r hr
    exact ⟨by simp [displayedParagraphs, hr], by simp [copiedText, hr]⟩

/-- C10 (witness): both branches at concrete payloads. -/
theorem c10_renderer_requires_result_witness :
    (displayedParagraphs okData = some (formatResult "fine") ∧
      copiedText okData = some "fine") ∧
    (displayedParagraphs (networkErrorResult "summary") = none ∧
      copiedText (networkErrorResult "summary") = none) :=
  ⟨c10_renderer_requires_result.1 okData "fine" rfl,
   c10_renderer_requires_result.2.1 (networkErrorResult "summary") rfl⟩

/-- `ilogAux` with enough fuel computes the base-1024 integer
logarithm. -/
theorem ilogAux_eq_log :
    ∀ fuel n : Nat, n ≤ fuel → ilogAux fuel n = Nat.log 1024 n := by
  intro fuel
  induction fuel with
  | zero =>
    intro n hn
    have hn0 : n = 0 := by omega
    subst hn0
    simp [ilogAux]
  | succ fuel ih =>
    intro n hn
    unfold ilogAux
    by_cases h : n < 1024
    · rw [if_pos h, Nat.log_of_lt h]
    · rw [if_neg h]
      push_neg at h
      have hlt : n / 1024 < n := Nat.div_lt_self (by omega) (by norm_num)
      rw [ih (n / 1024) (by omega), Nat.log_div_base]
      have hpos : 0 < Nat.log 1024 n := Nat.log_pos (by norm_num) h
      omega

/-- The fuel variant agrees with `Nat.log` base 1024. -/
theorem ilog1024_eq_log (n : Nat) : ilog1024 n = Nat.log 1024 n :=
  ilogAux_eq_log n n le_rfl

/-- A nonzero byte count is at least the 1024-power of its unit
index. -/
theorem pow_ilog1024_le (b : Nat) (hb : b ≠ 0) : 1024 ^ ilog1024 b ≤ b := by
  rw [ilog1024_eq_log]
  exact Nat.pow_log_le_self 1024 hb

/-- A byte count is below the next 1024-power after its unit index. -/
theorem lt_pow_ilog1024_succ (b : Nat) : b < 1024 ^ (ilog1024 b + 1) := by
  rw [ilog1024_eq_log]
  exact Nat.lt_pow_succ_log_self (by norm_num) b

/-- The unit index is monotone in the byte count. -/
theorem ilog1024_mono (a b : Nat) (h : a ≤ b) : ilog1024 a ≤ ilog1024 b := by
  rw [ilog1024_eq_log, ilog1024_eq_log]
  exact Nat.log_mono_right h

/-- The displayed hundredths count of a nonzero byte count is at least
100 (the displayed number is at least 1 in its own unit). -/
theorem sizeH_lower (b : Nat) (hb : b ≠ 0) : 100 ≤ sizeH b := by
  have hple : 1024 ^ ilog1024 b ≤ b := pow_ilog1024_le b hb
  have hppos : 0 < 1024 ^ ilog1024 b := pow_pos (by norm_num) _
  unfold sizeH
  rw [Nat.le_div_iff_mul_le (by omega)]
  omega

/-- The displayed hundredths count never exceeds 102400 (the displayed
number is at most 1024 in its own unit). -/
theorem sizeH_upper (b : Nat) : sizeH b ≤ 102400 := by
  have hppos : 0 < 1024 ^ ilog1024 b := pow_pos (by norm_num) _
  have hblt : b < 1024 * 1024 ^ ilog1024 b := by
    have h2 := lt_pow_ilog1024_succ b
    rw [pow_succ] at h2
    omega
  have hlt : sizeH b < 102401 := by
    unfold sizeH
    rw [Nat.div_lt_iff_lt_mul (by omega)]
    omega
  omega

/-- The value represented by the rendered size (number times unit
weight, scaled by 100) is monotone in the byte count. -/
theorem sizeValue_mono (a b : Nat) (h : a ≤ b) : sizeValue a ≤ sizeValue b := by
  rcases Nat.eq_zero_or_pos a with ha | ha
  · subst ha
    simp [sizeValue]
  have ha0 : a ≠ 0 := by omega
  have hb0 : b ≠ 0 := by omega
  unfold sizeValue
  rw [if_neg ha0, if_neg hb0]
  have hij : ilog1024 a ≤ ilog1024 b := ilog1024_mono a b h
  rcases eq_or_lt_of_le hij with heq | hlt
  · rw [← heq]
    apply mul_le_mul_right'
    unfold sizeH
    rw [← heq]
    apply Nat.div_le_div_right
    omega
  · calc sizeH a * 1024 ^ ilog1024 a
        ≤ 102400 * 1024 ^ ilog1024 a := mul_le_mul_right' (sizeH_upper a) _
      _ = 100 * 1024 ^ (ilog1024 a + 1) := by rw [pow_succ]; ring
      _ ≤ 100 * 1024 ^ ilog1024 b := by
            apply mul_le_mul_left'
            exact Nat.pow_le_pow_right (by norm_num) hlt
      _ ≤ sizeH b * 1024 ^ ilog1024 b :=
            mul_le_mul_right' (sizeH_lower b hb0) _

/-- C7: the file-size formatter maps 0 to "0 Bytes", 1024 to "1 KB",
1536 to "1.5 KB" and 1048576 to "1 MB"; the value it represents is
monotone in the byte count; and for every nonzero count the chosen
unit index is the 1024-band of the count, the output is an integer
number of hundredths (at most two decimal places) next to the chosen
unit, and the represented value is that number scaled by the unit's
1024-power. -/
theorem c7_format_file_size :
    formatFileSize 0 = "0 Bytes" ∧ formatFileSize 1024 = "1 KB" ∧
    formatFileSize 1536 = "1.5 KB" ∧ formatFileSize 1048576 = "1 MB" ∧
    (∀ a b : Nat, a ≤ b → sizeValue a ≤ sizeValue b) ∧
    (∀ b : Nat, 0 < b →
      1024 ^ ilog1024 b ≤ b ∧ b < 1024 ^ (ilog1024 b + 1) ∧
      formatFileSize b = renderHundredths (sizeH b) ++ " " ++ sizeUnit b ∧
      sizeValue b = sizeH b * 1024 ^ ilog1024 b) := by
  refine ⟨by decide, by decide, by decide, by decide, sizeValue_mono, ?_⟩
  intro b hb
  have hb0 : b ≠ 0 := by omega
  refine ⟨pow_ilog1024_le b hb0, lt_pow_ilog1024_succ b, ?_, ?_⟩
  · unfold formatFileSize sizeUnit
    rw [if_neg hb0, if_neg hb0]
  · unfold sizeValue
    rw [if_neg hb0]

/-- C7 (witness): monotonicity and the band property at concrete byte
counts. -/
theorem c7_format_file_size_witness :
    sizeValue 1024 ≤ sizeValue 1536 ∧ 1024 ^ ilog1024 5000 ≤ 5000 :=
  ⟨c7_format_file_size.2.2.2.2.1 1024 1536 (by decide),
   (c7_format_file_size.2.2.2.2.2 5000 (by decide)).1⟩

/-- C9: the unit table holds only Bytes, KB, MB, GB, so each byte count
of at least 1024^4 indexes past the table and renders the undefined
placeholder (e.g. `formatFileSize (1024^4) = "1 undefined"`), while
every count below 1024^4 renders a unit from the table. -/
theorem c9_unit_overflow :
    sizeUnits = ["Bytes", "KB", "MB", "GB"] ∧
    (∀ b : Nat, 1024 ^ 4 ≤ b → sizeUnit b = "undefined") ∧
    (∀ b : Nat, b < 1024 ^ 4 → sizeUnit b ∈ sizeUnits) ∧
    formatFileSize (1024 ^ 4) = "1 undefined" := by
  refine ⟨rfl, ?_, ?_, by decide⟩
  · intro b hb
    have hp4 : (0:Nat) < 1024 ^ 4 := by norm_num
    have hb0 : b ≠ 0 := by omega
    have hlog : 4 ≤ Nat.log 1024 b :=
      (Nat.pow_le_iff_le_log (by norm_num) hb0).mp hb
    unfold sizeUnit
    rw [if_neg hb0]
    unfold unitAt
    have hnone : sizeUnits.get? (ilog1024 b) = none := by
      rw [List.get?_eq_none, ilog1024_eq_log]
      simpa [sizeUnits] using hlog
    rw [hnone]
    rfl
  · intro b hb
    by_cases hb0 : b = 0
    · subst hb0
      simp [sizeUnit, sizeUnits]
    · have hlog : Nat.log 1024 b < 4 :=
        (Nat.lt_pow_iff_log_lt (by norm_num) hb0).mp hb
      unfold sizeUnit
      rw [if_neg hb0, show ilog1024 b = Nat.log 1024 b from ilog1024_eq_log b]
      interval_cases h : Nat.log 1024 b <;> simp [unitAt, sizeUnits]

/-- C9 (witness): the overflow placeholder at exactly 1024^4 and an
in-table unit at 5 bytes. -/
theorem c9_unit_overflow_witness :
    sizeUnit (1024 ^ 4) = "undefined" ∧ sizeUnit 5 ∈ sizeUnits :=
  ⟨c9_unit_overflow.2.1 (1024 ^ 4) (by decide),
   c9_unit_overflow.2.2.1 5 (by decide)⟩
